import Mathlib

/-!
Shallow embedding of the codecollab-backend real-time collaboration server.

`src/server.js` concatenates three variants of the server separated by
document markers; the in-memory registry is in every variant a family of
global maps (`activeSessions`, `userSockets`, `sessionCode`,
`sessionCursors`, and in the third variant also `sessionChats`).
JavaScript `Map`s with string keys are embedded as ordered association
lists.  All timer callbacks (`setTimeout`) are embedded as explicit
functions applied at the scheduled instant.
-/

/-- Association-list embedding of a JavaScript `Map` with string keys. -/
abbrev SMap (α : Type) := List (String × α)

/-- `Map.prototype.get`. -/
def mget {α : Type} : SMap α → String → Option α
  | [], _ => none
  | (k', v) :: rest, k => if k' = k then some v else mget rest k

/-- `Map.prototype.set`: updates the existing entry in place, otherwise
appends, matching JavaScript `Map` insertion-order semantics. -/
def mset {α : Type} : SMap α → String → α → SMap α
  | [], k, v => [(k, v)]
  | (k', v') :: rest, k, v =>
      if k' = k then (k, v) :: rest else (k', v') :: mset rest k v

/-- `Map.prototype.delete`. -/
def mdel {α : Type} : SMap α → String → SMap α
  | [], _ => []
  | (k', v) :: rest, k => if k' = k then mdel rest k else (k', v) :: mdel rest k

/-- `Map.prototype.has`. -/
def mhas {α : Type} (m : SMap α) (k : String) : Bool :=
  (mget m k).isSome

/-- JavaScript truthiness of an optional string: `undefined`, `null` and
`""` are falsy, every other string is truthy. -/
def jsTruthy : Option String → Bool
  | none => false
  | some s => decide (s ≠ "")

/-- JavaScript `x || d` for an optional string `x`. -/
def jsOrDefault (o : Option String) (d : String) : String :=
  match o with
  | some s => if s = "" then d else s
  | none => d

/-- The identity payload bound to a connection by the `authenticate`
handler (`socket.userData = userData`, server.js). -/
structure UserData where
  id : String
  username : String
deriving DecidableEq, Repr

/-- The per-connection state the gateway keeps on the socket object:
`socket.id`, `socket.userData` (set by `authenticate`, absent before) and
`socket.currentSession` (set by `join-session`). -/
structure Socket where
  id : String
  userData : Option UserData
  currentSession : Option String
deriving DecidableEq, Repr

/-- The participant record stored by `join-session` into
`activeSessions.get(sessionId)`:
`{...user, socketId, joinedAt, isTyping: false, status: 'active', cursor}`. -/
structure Participant where
  id : String
  username : String
  socketId : String
  joinedAt : Nat
  isTyping : Bool
  status : String
  cursorLine : Nat
  cursorColumn : Nat
deriving DecidableEq, Repr

/-- A cursor-table entry as stored by the `cursor-position` handler of the
third server variant: `{userId, username, position, lastUpdate}`. -/
structure CursorEntry where
  userId : Option String
  username : Option String
  posLine : Nat
  posColumn : Nat
  lastUpdate : Nat
deriving DecidableEq, Repr

/-- A chat message as built by the `chat-message` handler of the third
server variant (server.js 1366-1373):
`{id: Date.now() + Math.random(), message: message.trim(), userId,
username, timestamp, socketId}`.  The id is a JavaScript double, embedded
as a rational `now + rand` with `now` the millisecond clock and
`0 ≤ rand < 1` the `Math.random()` draw. -/
structure ChatMsg where
  id : ℚ
  message : String
  userId : Option String
  username : Option String
  timestamp : Nat
  socketId : String
deriving DecidableEq, Repr

/-- The global registry of the third server variant (server.js 1205-1209):
`activeSessions`, `userSockets`, `sessionCode`, `sessionCursors`,
`sessionChats`. -/
structure ServerState where
  activeSessions : SMap (SMap Participant)
  userSockets : SMap String
  sessionCode : SMap String
  sessionCursors : SMap (SMap CursorEntry)
  sessionChats : SMap (List ChatMsg)
deriving DecidableEq, Repr

/-- A raw cursor position (first variant stores positions directly). -/
structure Pos where
  line : Nat
  column : Nat
deriving DecidableEq, Repr

/-- The global registry of the first/second server variants
(server.js 133-136): `activeSessions`, `userSockets`, `sessionCode`,
`sessionCursors` (no chat store in these variants). -/
structure Registry1 where
  activeSessions : SMap (SMap Participant)
  userSockets : SMap String
  sessionCode : SMap String
  sessionCursors : SMap (SMap Pos)
deriving DecidableEq, Repr

/-- The payload broadcast by the `code-change` handler of the third
variant (server.js 1308-1315); `fromUser` embeds the field named `from`
in the source (`socket.userData?.username || 'Anonymous'`). -/
structure CodeChangeMsg where
  code : String
  op : String
  fromUser : String
  fromUserId : Option String
  socketId : String
  timestamp : Nat
deriving DecidableEq, Repr

/-- Result of one `code-change` handler run: the new registry state, the
broadcast sent via `socket.to(sessionId)` (absent when the guard returns
early), and the list of events emitted directly back to the sender.  The
handler body contains no `socket.emit` at all, so that list is empty on
every path. -/
structure CodeChangeResult where
  state : ServerState
  broadcast : Option CodeChangeMsg
  senderEvents : List String
deriving DecidableEq, Repr

/-- The `code-change` handler of the third server variant
(server.js 1296-1322); the first variant's handler (server.js 226-245)
has the identical guard and the identical `sessionCode.set(sessionId,
code)` mutation.  Guard: `if (!sessionId || !socket.currentSession)
return;`.  The stored buffer is replaced unconditionally with the
submitted `code`; the `operation` descriptor is only forwarded in the
broadcast (`operation: operation || 'edit'`). -/
def codeChange (st : ServerState) (sock : Socket) (sessionId : Option String)
    (code : String) (op : Option String) (now : Nat) : CodeChangeResult :=
  match sessionId with
  | none => ⟨st, none, []⟩
  | some sid =>
      if sid = "" ∨ jsTruthy sock.currentSession = false then ⟨st, none, []⟩
      else
        ⟨{ st with sessionCode := mset st.sessionCode sid code },
         some { code := code
                op := jsOrDefault op "edit"
                fromUser := jsOrDefault (sock.userData.map UserData.username) "Anonymous"
                fromUserId := sock.userData.map UserData.id
                socketId := sock.id
                timestamp := now },
         []⟩

/-- A sequence of `code-change` events from one socket, applied in
server-received order; each list element is (payload sessionId, code,
operation descriptor). -/
def applyEditSeq (sock : Socket) (now : Nat) :
    ServerState → List (String × String × Option String) → ServerState
  | st, [] => st
  | st, e :: rest =>
      applyEditSeq sock now (codeChange st sock (some e.1) e.2.1 e.2.2 now).state rest

/-- Embeds socket.io `socket.to(room).emit`: the message is delivered to
every socket that joined `room` except the sending socket (socket.io
broadcast semantics used throughout server.js).  `rooms` is the
transport-level room membership built up by `socket.join`. -/
def broadcastRecipients (rooms : SMap (List String)) (room : String)
    (sender : String) : List String :=
  ((mget rooms room).getD []).filter (fun s => decide (s ≠ sender))

/-- Chat message constructor of the third variant's `chat-message`
handler (server.js 1366-1373). -/
def mkChatMsg (sock : Socket) (m : String) (now : Nat) (rand : ℚ) : ChatMsg :=
  { id := (now : ℚ) + rand
    message := m.trim
    userId := sock.userData.map UserData.id
    username := sock.userData.map UserData.username
    timestamp := now
    socketId := sock.id }

/-- Result of one `chat-message` handler run in the third variant: the
new registry state and the message broadcast via `io.to(sessionId)`
(delivered to the whole room, sender included). -/
structure ChatResult where
  state : ServerState
  broadcast : Option ChatMsg
deriving DecidableEq, Repr

/-- The `chat-message` handler of the third server variant
(server.js 1358-1394).  Guard: `if (!sessionId || !message ||
!socket.currentSession) return;`.  If the session has a chat store the
message is pushed and the history is capped via
`chatHistory.splice(0, chatHistory.length - 100)`, keeping the last 100
entries; the message is then broadcast to the whole room. -/
def chatMessage3 (st : ServerState) (sock : Socket) (sessionId : Option String)
    (msg : Option String) (now : Nat) (rand : ℚ) : ChatResult :=
  match sessionId, msg with
  | some sid, some m =>
      if sid = "" ∨ m = "" ∨ jsTruthy sock.currentSession = false then ⟨st, none⟩
      else
        let cm := mkChatMsg sock m now rand
        let st' :=
          match mget st.sessionChats sid with
          | some h =>
              let h1 := h ++ [cm]
              let h2 := if 100 < h1.length then h1.drop (h1.length - 100) else h1
              { st with sessionChats := mset st.sessionChats sid h2 }
          | none => st
        ⟨st', some cm⟩
  | _, _ => ⟨st, none⟩

/-- A chat message of the first server variant (server.js 353-359):
`{id, username, message: message.trim(), timestamp, socketId}`. -/
structure ChatMsg1 where
  id : ℚ
  username : String
  message : String
  timestamp : Nat
  socketId : String
deriving DecidableEq, Repr

/-- Result of one first-variant `chat-message` handler run: the broadcast
(if any) and the events emitted back to the sender — the handler contains
no `socket.emit`, so the latter list is empty on every path, and it
stores nothing (these variants have no chat store). -/
structure Chat1Result where
  broadcast : Option ChatMsg1
  senderEvents : List String
deriving DecidableEq, Repr

/-- The `chat-message` handler of the first server variant
(server.js 348-363).  Guard: `if (!sessionId || !message ||
!socket.userData) return;` — a message from an unidentified connection is
silently dropped, with no error signal of any kind. -/
def chatMessage1 (sock : Socket) (sessionId : Option String)
    (msg : Option String) (now : Nat) (rand : ℚ) : Chat1Result :=
  match sessionId, msg, sock.userData with
  | some sid, some m, some u =>
      if sid = "" ∨ m = "" then ⟨none, []⟩
      else
        ⟨some { id := (now : ℚ) + rand
                username := u.username
                message := m.trim
                timestamp := now
                socketId := sock.id },
         []⟩
  | _, _, _ => ⟨none, []⟩

/-- Result of one `handleUserLeaveSession` run (first/second variants):
the new registry state, the `user-left` broadcast payload and the
`participant-count-update` payload (both absent when the guard fails). -/
structure LeaveResult where
  state : Registry1
  userLeft : Option Participant
  countUpdate : Option Nat
deriving DecidableEq, Repr

/-- `handleUserLeaveSession` of the first/second server variants
(server.js 386-426 and 948-988).  Guard: `if (sessionUsers &&
sessionUsers.has(socket.id))`.  Removes the participant and its cursor,
emits `user-left` and the new count, and when the participant map became
empty deletes the session from `activeSessions`, `sessionCode` and
`sessionCursors` in the same synchronous block. -/
def handleUserLeaveSession (st : Registry1) (sockId : String) (sid : String) :
    LeaveResult :=
  match mget st.activeSessions sid with
  | none => ⟨st, none, none⟩
  | some sessionUsers =>
      match mget sessionUsers sockId with
      | none => ⟨st, none, none⟩
      | some userData =>
          let sessionUsers' := mdel sessionUsers sockId
          let cursors1 :=
            match mget st.sessionCursors sid with
            | some cs => mset st.sessionCursors sid (mdel cs sockId)
            | none => st.sessionCursors
          if sessionUsers'.isEmpty then
            ⟨{ activeSessions := mdel st.activeSessions sid
               userSockets := st.userSockets
               sessionCode := mdel st.sessionCode sid
               sessionCursors := mdel cursors1 sid },
             some userData, some sessionUsers'.length⟩
          else
            ⟨{ activeSessions := mset st.activeSessions sid sessionUsers'
               userSockets := st.userSockets
               sessionCode := st.sessionCode
               sessionCursors := cursors1 },
             some userData, some sessionUsers'.length⟩

/-- Whether `sockId` is currently a participant of room `sid`. -/
def memberOf (st : Registry1) (sid sockId : String) : Bool :=
  match mget st.activeSessions sid with
  | some users => mhas users sockId
  | none => false

/-- Every room present in the registry has at least one participant (the
registry half of the spec's room-lifecycle invariant). -/
def roomsNonempty (st : Registry1) : Prop :=
  ∀ sid users, mget st.activeSessions sid = some users → users ≠ []

/-- Result of one third-variant `disconnect` handler run. -/
structure DisconnectResult where
  state : ServerState
  userLeftEmitted : Bool
  countUpdate : Option Nat
deriving DecidableEq, Repr

/-- The `disconnect` handler of the third server variant
(server.js 1420-1455): removes the socket from the session's participant
map and cursor table, emits `user-left` and the remaining count, and
drops the `userSockets` entry.  Unlike `handleUserLeaveSession` of the
first/second variants, it never deletes the session maps, even when the
participant map became empty. -/
def disconnect3 (st : ServerState) (sock : Socket) : DisconnectResult :=
  let r : DisconnectResult :=
    match sock.currentSession with
    | none => ⟨st, false, none⟩
    | some sid =>
        if sid = "" then ⟨st, false, none⟩
        else
          let as1 :=
            match mget st.activeSessions sid with
            | some users => mset st.activeSessions sid (mdel users sock.id)
            | none => st.activeSessions
          let cur1 :=
            match mget st.sessionCursors sid with
            | some cs => mset st.sessionCursors sid (mdel cs sock.id)
            | none => st.sessionCursors
          ⟨{ st with activeSessions := as1, sessionCursors := cur1 },
           true,
           (mget as1 sid).map (fun users => users.length)⟩
  match sock.userData with
  | some u => { r with state := { r.state with userSockets := mdel r.state.userSockets u.id } }
  | none => r

/-- The fixed buffer template installed by the third variant's
`join-session` handler on first join (server.js 1249). -/
def welcomeTemplate3 : String :=
  "// Welcome to CodeCollab!\n// Start coding together!\n\nconsole.log(\"Hello, World!\");"

/-- The fixed buffer template installed by the first/second variants'
`join-session` handlers on first join (server.js 181 and 792). -/
def welcomeTemplate1 : String :=
  "// Welcome to CodeCollab!\n// Start typing to collaborate in real-time\n\nconsole.log(\"Hello, World!\");"

/-- The participant record stored by the third variant's `join-session`
handler (server.js 1256-1263). -/
def mkParticipant3 (u : UserData) (sockId : String) (now : Nat) : Participant :=
  { id := u.id
    username := u.username
    socketId := sockId
    joinedAt := now
    isTyping := false
    status := "active"
    cursorLine := 1
    cursorColumn := 1 }

/-- Result of one third-variant `join-session` handler run: the new
registry state and socket, the `error` emit (guard failure), and the
catch-up messages sent to the joiner (`code-sync`, `chat-history`,
`session-participants`) plus the `participant-count-update` payload. -/
structure JoinResult where
  state : ServerState
  socket : Socket
  errorMsg : Option String
  codeSync : Option String
  chatHistory : Option (List ChatMsg)
  participants : Option (List Participant)
  countUpdate : Option Nat
deriving DecidableEq, Repr

/-- The `join-session` handler of the third server variant
(server.js 1233-1293).  Guard: `if (!sessionId || !user)` emits an
`error`.  On first join of a session id the four session maps are
initialized, with the buffer set to `welcomeTemplate3`; the joiner is
then registered and sent `code-sync` with the current buffer. -/
def joinSession3 (st : ServerState) (sock : Socket) (sessionId : Option String)
    (user : Option UserData) (now : Nat) : JoinResult :=
  match sessionId, user with
  | some sid, some u =>
      if sid = "" then ⟨st, sock, some "Invalid session data", none, none, none, none⟩
      else
        let sock' := { sock with currentSession := some sid }
        let st1 :=
          if mhas st.activeSessions sid then st
          else
            { activeSessions := mset st.activeSessions sid []
              userSockets := st.userSockets
              sessionCode := mset st.sessionCode sid welcomeTemplate3
              sessionCursors := mset st.sessionCursors sid []
              sessionChats := mset st.sessionChats sid [] }
        let users := (mget st1.activeSessions sid).getD []
        let users' := mset users sock.id (mkParticipant3 u sock.id now)
        let st2 := { st1 with activeSessions := mset st1.activeSessions sid users' }
        ⟨st2, sock', none,
         mget st2.sessionCode sid,
         mget st2.sessionChats sid,
         some (users'.map Prod.snd),
         some users'.length⟩
  | _, _ => ⟨st, sock, some "Invalid session data", none, none, none, none⟩

/-- Dispatch record of one `execute-code` handler run (first/second
variants, server.js 303-345): whether `execution-started` was broadcast
and the instant at which the `axios.post` call to the execution
collaborator was issued.  After the `if (!sessionId) return;` guard the
handler awaits `axios.post` directly: the source contains no queue, no
pacing state, no inter-dispatch delay and no in-flight bookkeeping of any
kind, so the collaborator call of each request starts at the moment its
handler runs. -/
structure ExecDispatch where
  startedBroadcast : Bool
  pistonCallAt : Option Nat
deriving DecidableEq, Repr

/-- The dispatch behaviour of the `execute-code` handler invoked at
instant `now` with payload session id `sessionId`. -/
def executeCode (sessionId : Option String) (now : Nat) : ExecDispatch :=
  match sessionId with
  | none => ⟨false, none⟩
  | some sid => if sid = "" then ⟨false, none⟩ else ⟨true, some now⟩

/-- Collaborator-call start times of a batch of `execute-code` events,
each given as (payload session id, arrival instant of the event). -/
def dispatchTimes (events : List (Option String × Nat)) : List Nat :=
  events.filterMap (fun e => (executeCode e.1 e.2).pistonCallAt)

/-- Whether every pair of start times in the list is at least `gap`
milliseconds apart. -/
def pairGapsOK (gap : Nat) : List Nat → Bool
  | [] => true
  | a :: rest =>
      rest.all (fun b => decide (gap ≤ a - b ∨ gap ≤ b - a)) && pairGapsOK gap rest

/-- Number of collaborator calls in flight at instant `t` when each call
starts at the listed instants and lasts `dur` milliseconds. -/
def inFlightCount (starts : List Nat) (dur t : Nat) : Nat :=
  (starts.filter (fun s => decide (s ≤ t ∧ t < s + dur))).length

/-- The failure classifications distinguished by the `pistonError` catch
block of POST /api/execute/run (execute-routes.js 287-316):
`ECONNABORTED`, an HTTP response with a status code, or no response. -/
inductive PistonError
  | connAborted
  | httpResponse (status : Nat)
  | noResponse
deriving DecidableEq, Repr

/-- The error message chosen by the `pistonError` catch block. -/
def pistonErrorMessage : PistonError → String
  | .connAborted => "Code execution timed out"
  | .httpResponse status =>
      if status = 400 then "Invalid code or language configuration"
      else if status = 429 then "Too many execution requests. Please wait and try again."
      else if 500 ≤ status then "Code execution service temporarily unavailable"
      else "Code execution failed"
  | .noResponse => "Code execution failed"

/-- The response POST /api/execute/run sends when the collaborator call
fails: HTTP status, `success` flag, error message, the number of
`axios.post` attempts the route made for this request, and the delays it
waited between attempts. -/
structure RunFailure where
  httpStatus : Nat
  success : Bool
  error : String
  collaboratorCalls : Nat
  retryDelaysMs : List Nat
deriving DecidableEq, Repr

/-- POST /api/execute/run on a collaborator failure
(execute-routes.js 287-316): the route's single `axios.post` attempt has
failed and the catch block immediately sends `res.status(500)` with
`success: false`.  The route body contains no retry loop, no wait and no
inspection of any retry-after hint, so every failure is surfaced after
exactly one collaborator call with no delay. -/
def runOnPistonError (e : PistonError) : RunFailure :=
  { httpStatus := 500
    success := false
    error := pistonErrorMessage e
    collaboratorCalls := 1
    retryDelaysMs := [] }

/-- A typing-indicator entry of `CodeState.typingUsers`
(CodeState.js 396-410): `{userId, username, position, startedAt}`. -/
structure TypingEntry where
  userId : String
  username : String
  posLine : Nat
  posColumn : Nat
  startedAt : Nat
deriving DecidableEq, Repr

/-- `CodeState.setTyping` (CodeState.js 611-634): drops any existing
entry for the user, appends a fresh entry stamped `now`, and schedules
`typingSweep` to run 3000 ms later. -/
def setTyping (l : List TypingEntry) (uid uname : String)
    (line col now : Nat) : List TypingEntry :=
  (l.filter (fun e => decide (e.userId ≠ uid))) ++ [⟨uid, uname, line, col, now⟩]

/-- The `setTimeout` callback inside `CodeState.setTyping`
(CodeState.js 626-631), run at instant `now`: keeps an entry iff it
belongs to another user or is younger than 3000 ms. -/
def typingSweep (l : List TypingEntry) (uid : String) (now : Nat) :
    List TypingEntry :=
  l.filter (fun e => decide (e.userId ≠ uid) || decide (now - e.startedAt < 3000))

/-- The 2-second `setTimeout` scheduled by the first variant's
`code-change` handler (server.js 253-262), run at its deadline: if the
socket is still in the session its `isTyping` flag is cleared; a socket
removed meanwhile (disconnect mid-type) is left alone — its record,
typing flag included, is already gone from the map. -/
def typingClear1 (users : SMap Participant) (sockId : String) :
    SMap Participant :=
  match mget users sockId with
  | some u => mset users sockId { u with isTyping := false }
  | none => users

/-- Fixture: the empty third-variant registry. -/
def stEmpty : ServerState := ⟨[], [], [], [], []⟩

/-- Fixture: an identified user. -/
def uAlice : UserData := ⟨"u1", "alice"⟩

/-- Fixture: the participant record of `uAlice` on socket `a`. -/
def pAlice : Participant := mkParticipant3 uAlice "a" 0

/-- Fixture: a registry with one room `s` holding the single participant
`pAlice` on socket `a`, as produced by a first join. -/
def oneUserState : ServerState :=
  { activeSessions := [("s", [("a", pAlice)])]
    userSockets := [("u1", "a")]
    sessionCode := [("s", welcomeTemplate3)]
    sessionCursors := [("s", [])]
    sessionChats := [("s", [])] }

/-- Fixture: an identified socket `a` currently in room `s`. -/
def sockAlice : Socket := ⟨"a", some uAlice, some "s"⟩

/-- Fixture: an unidentified socket `a` currently in room `s` (it joined
without ever sending `authenticate`, which `join-session` permits). -/
def sockAnon : Socket := ⟨"a", none, some "s"⟩

/-- Fixture: a first/second-variant registry with one room `s` holding
the single participant `pAlice` on socket `a`. -/
def oneUserReg1 : Registry1 :=
  { activeSessions := [("s", [("a", pAlice)])]
    userSockets := [("u1", "a")]
    sessionCode := [("s", welcomeTemplate1)]
    sessionCursors := [("s", [("a", ⟨0, 0⟩)])] }

/-- Fixture: a pre-existing chat message. -/
def cm0 : ChatMsg := ⟨0, "m", some "u0", some "bob", 0, "b"⟩

/-- Fixture: a registry whose room `s` has an empty chat log. -/
def chatState0 : ServerState := { stEmpty with sessionChats := [("s", [])] }

/-- Fixture: a registry whose room `s` already holds 100 chat messages. -/
def chatState100 : ServerState :=
  { stEmpty with sessionChats := [("s", List.replicate 100 cm0)] }

/-- Fixture: a registry with a stored buffer for room `s` and a second
participant `b`, used to observe mutations caused by an unidentified
sender. -/
def c8State : ServerState :=
  { activeSessions := [("s", [("b", mkParticipant3 ⟨"u2", "bob"⟩ "b" 0)])]
    userSockets := [("u2", "b")]
    sessionCode := [("s", "old")]
    sessionCursors := [("s", [])]
    sessionChats := [("s", [])] }

theorem mget_mset_self {α : Type} (m : SMap α) (k : String) (v : α) :
    mget (mset m k v) k = some v := by
  induction m with
  | nil => simp [mset, mget]
  | cons p rest ih =>
      obtain ⟨k₀, v₀⟩ := p
      by_cases h : k₀ = k
      · simp [mset, h, mget]
      · simp [mset, h, mget, ih]

theorem mget_mset_ne {α : Type} (m : SMap α) (k k' : String) (v : α)
    (h : k' ≠ k) : mget (mset m k v) k' = mget m k' := by
  induction m with
  | nil => simp [mset, mget, Ne.symm h]
  | cons p rest ih =>
      obtain ⟨k₀, v₀⟩ := p
      by_cases hk : k₀ = k
      · subst hk
        simp [mset, mget, Ne.symm h]
      · by_cases hx : k₀ = k' <;> simp [mset, hk, mget, hx, ih, h]

theorem mget_mdel_self {α : Type} (m : SMap α) (k : String) :
    mget (mdel m k) k = none := by
  induction m with
  | nil => simp [mdel, mget]
  | cons p rest ih =>
      obtain ⟨k₀, v₀⟩ := p
      by_cases h : k₀ = k
      · simp [mdel, h, ih]
      · simp [mdel, h, mget, ih]

theorem mget_mdel_ne {α : Type} (m : SMap α) (k k' : String) (h : k' ≠ k) :
    mget (mdel m k) k' = mget m k' := by
  induction m with
  | nil => simp [mdel]
  | cons p rest ih =>
      obtain ⟨k₀, v₀⟩ := p
      by_cases hk : k₀ = k
      · subst hk
        simp [mdel, mget, Ne.symm h, ih]
      · by_cases hx : k₀ = k' <;> simp [mdel, hk, mget, hx, ih, h]

/-- Claim C1: the `code-change` handler replaces the room's stored buffer
content unconditionally with the submitted content, ignoring the
operation descriptor, so that a snapshot taken immediately after any edit
returns exactly the last-submitted content regardless of how many prior
edits were applied. -/
theorem C1_edit_lastWriteWins (st : ServerState) (sock : Socket)
    (sid code : String) (op : Option String) (now : Nat)
    (hsid : sid ≠ "") (hcur : jsTruthy sock.currentSession = true) :
    mget (codeChange st sock (some sid) code op now).state.sessionCode sid = some code
    ∧ (∀ op' now', (codeChange st sock (some sid) code op now).state
        = (codeChange st sock (some sid) code op' now').state)
    ∧ (∀ prior, mget (codeChange (applyEditSeq sock now st prior) sock
        (some sid) code op now).state.sessionCode sid = some code) := by
  have hguard : ¬ (sid = "" ∨ jsTruthy sock.currentSession = false) := by
    simp [hsid, hcur]
  refine ⟨?_, ?_, ?_⟩
  · simp [codeChange, hguard, mget_mset_self]
  · intro op' now'
    simp [codeChange, hguard]
  · intro prior
    simp [codeChange, hguard, mget_mset_self]

/-- Witness for C1: an edit in the one-user fixture room is immediately
visible in the room's buffer snapshot. -/
theorem C1_witness :
    mget (codeChange oneUserState sockAlice (some "s") "print(1)" none 7).state.sessionCode "s"
      = some "print(1)" :=
  (C1_edit_lastWriteWins oneUserState sockAlice "s" "print(1)" none 7
    (by decide) (by decide)).1

/-- Claim C6: an accepted edit is broadcast (with the submitted content)
to every other connection currently in the room and is never delivered
back to the sending connection, since `socket.to(sessionId)` excludes the
sender. -/
theorem C6_edit_fanout (rooms : SMap (List String)) (st : ServerState)
    (sock : Socket) (sid code : String) (op : Option String) (now : Nat)
    (c : String) (hsid : sid ≠ "") (hcur : jsTruthy sock.currentSession = true)
    (hc : c ∈ (mget rooms sid).getD []) (hcs : c ≠ sock.id) :
    (codeChange st sock (some sid) code op now).broadcast.map CodeChangeMsg.code
      = some code
    ∧ sock.id ∉ broadcastRecipients rooms sid sock.id
    ∧ c ∈ broadcastRecipients rooms sid sock.id := by
  have hguard : ¬ (sid = "" ∨ jsTruthy sock.currentSession = false) := by
    simp [hsid, hcur]
  refine ⟨by simp [codeChange, hguard], ?_, ?_⟩
  · intro hmem
    have hp := (List.mem_filter.mp hmem).2
    simp at hp
  · exact List.mem_filter.mpr ⟨hc, by simpa using hcs⟩

/-- Witness for C6: in a two-socket room, socket `b` receives the edit
broadcast with the submitted content and the sender `a` does not. -/
theorem C6_witness :
    (codeChange oneUserState sockAlice (some "s") "print(1)" none 7).broadcast.map CodeChangeMsg.code
      = some "print(1)"
    ∧ "a" ∉ broadcastRecipients [("s", ["a", "b"])] "s" "a"
    ∧ "b" ∈ broadcastRecipients [("s", ["a", "b"])] "s" "a" :=
  C6_edit_fanout [("s", ["a", "b"])] oneUserState sockAlice "s" "print(1)"
    none 7 "b" (by decide) (by decide) (by decide) (by decide)

/-- Claim C7: `handleUserLeaveSession` is total and idempotent: it never
throws, a call for an unknown connection leaves the registry unchanged
(and emits nothing), the connection is no longer a member afterwards, and
repeating the call is a no-op. -/
theorem C7_leave_idempotent (st : Registry1) (sockId sid : String) :
    (memberOf st sid sockId = false →
        handleUserLeaveSession st sockId sid = ⟨st, none, none⟩)
    ∧ memberOf (handleUserLeaveSession st sockId sid).state sid sockId = false
    ∧ handleUserLeaveSession (handleUserLeaveSession st sockId sid).state sockId sid
        = ⟨(handleUserLeaveSession st sockId sid).state, none, none⟩ := by
  have hnoop : ∀ s : Registry1, memberOf s sid sockId = false →
      handleUserLeaveSession s sockId sid = ⟨s, none, none⟩ := by
    intro s hm
    unfold handleUserLeaveSession
    unfold memberOf at hm
    cases hu : mget s.activeSessions sid with
    | none => simp [hu]
    | some users =>
        rw [hu] at hm
        cases hs : mget users sockId with
        | none => simp [hu, hs]
        | some u => simp [mhas, hs] at hm
  have hafter : memberOf (handleUserLeaveSession st sockId sid).state sid sockId = false := by
    unfold handleUserLeaveSession memberOf
    cases hu : mget st.activeSessions sid with
    | none => simp [hu, mhas]
    | some users =>
        cases hs : mget users sockId with
        | none => simp [hu, hs, mhas]
        | some u =>
            by_cases he : (mdel users sockId).isEmpty = true
            · simp [hu, hs, he, mget_mdel_self]
            · simp [hu, hs, he, mget_mset_self, mhas, mget_mdel_self]
  exact ⟨hnoop st, hafter, hnoop _ hafter⟩

/-- Witness for C7: leaving with a connection unknown to an empty
registry changes nothing and emits nothing. -/
theorem C7_witness :
    handleUserLeaveSession ⟨[], [], [], []⟩ "a" "s" = ⟨⟨[], [], [], []⟩, none, none⟩ :=
  (C7_leave_idempotent ⟨[], [], [], []⟩ "a" "s").1 (by decide)

/-- Claim C2 counterexample: in the third server variant, the only
participant of room `s` disconnecting leaves the room registered with an
empty participant map, and its buffer, cursor table and chat log all
survive — the `disconnect` handler (server.js 1420-1455) never deletes
the session maps, refuting the registered-iff-nonempty invariant and the
atomic destruction of derived state. -/
theorem C2_counterexample :
    (mget (disconnect3 oneUserState sockAlice).state.activeSessions "s").isSome = true
    ∧ mget (disconnect3 oneUserState sockAlice).state.activeSessions "s" = some []
    ∧ mget (disconnect3 oneUserState sockAlice).state.sessionCode "s" = some welcomeTemplate3
    ∧ mget (disconnect3 oneUserState sockAlice).state.sessionCursors "s" = some []
    ∧ mget (disconnect3 oneUserState sockAlice).state.sessionChats "s" = some [] := by
  decide

/-- Claim C2 (amended): the first/second variants' leave path
(`handleUserLeaveSession`, reached from both `leave-session` and
`disconnect`) preserves the registered-iff-nonempty invariant and, when
the last participant leaves, deletes the room's entry from
`activeSessions`, `sessionCode` and `sessionCursors` in the same
synchronous block; the third variant's `disconnect` and `leave-session`
handlers instead leave an emptied room and all its derived state in the
registry (see the counterexample). -/
theorem C2_amended_room_lifecycle (st : Registry1) (sockId sid : String) :
    (roomsNonempty st → roomsNonempty (handleUserLeaveSession st sockId sid).state)
    ∧ (∀ users, mget st.activeSessions sid = some users →
        mhas users sockId = true → mdel users sockId = [] →
        mget (handleUserLeaveSession st sockId sid).state.activeSessions sid = none
        ∧ mget (handleUserLeaveSession st sockId sid).state.sessionCode sid = none
        ∧ mget (handleUserLeaveSession st sockId sid).state.sessionCursors sid = none) := by
  constructor
  · intro hinv
    unfold handleUserLeaveSession
    cases hu : mget st.activeSessions sid with
    | none => simpa [hu] using hinv
    | some users =>
        cases hs : mget users sockId with
        | none => simpa [hu, hs] using hinv
        | some u =>
            by_cases he : (mdel users sockId).isEmpty = true
            · simp only [hu, hs, he, if_true]
              intro sid' us' hget
              by_cases hx : sid' = sid
              · subst hx
                rw [mget_mdel_self] at hget
                exact absurd hget (by simp)
              · rw [mget_mdel_ne _ _ _ hx] at hget
                exact hinv sid' us' hget
            · simp [hu, hs, he]
              intro sid' us' hget
              by_cases hx : sid' = sid
              · subst hx
                rw [mget_mset_self] at hget
                injection hget with hget
                subst hget
                intro h0
                exact he (by rw [h0]; rfl)
              · rw [mget_mset_ne _ _ _ _ hx] at hget
                exact hinv sid' us' hget
  · intro users hu hhas hdel
    have hs : ∃ u, mget users sockId = some u := by
      cases hq : mget users sockId with
      | none => rw [mhas, hq] at hhas; simp at hhas
      | some u => exact ⟨u, rfl⟩
    obtain ⟨u, hs⟩ := hs
    have he : (mdel users sockId).isEmpty = true := by rw [hdel]; rfl
    unfold handleUserLeaveSession
    simp [hu, hs, he, mget_mdel_self]

/-- Witness for the amended C2: in the one-user fixture room, the sole
participant leaving destroys the room and all derived state, and the
invariant holds afterwards. -/
theorem C2_amended_witness :
    roomsNonempty (handleUserLeaveSession oneUserReg1 "a" "s").state
    ∧ mget (handleUserLeaveSession oneUserReg1 "a" "s").state.activeSessions "s" = none
    ∧ mget (handleUserLeaveSession oneUserReg1 "a" "s").state.sessionCode "s" = none
    ∧ mget (handleUserLeaveSession oneUserReg1 "a" "s").state.sessionCursors "s" = none := by
  have hinv : roomsNonempty oneUserReg1 := by
    intro sid users hget
    simp only [oneUserReg1, mget] at hget
    split at hget
    · cases hget
      simp
    · simp at hget
  have h := C2_amended_room_lifecycle oneUserReg1 "a" "s"
  have hdel := h.2 [("a", pAlice)] (by decide) (by decide) (by decide)
  exact ⟨h.1 hinv, hdel.1, hdel.2.1, hdel.2.2⟩

/-- Claim C5 counterexample: two chat messages stored in the same
millisecond (`Date.now() = 5`) with `Math.random()` draws `9/10` and
`1/2` receive ids `59/10` and `11/2`: the second stored message's id is
smaller than its predecessor's, refuting the claim that every newly
stored id is strictly greater than all prior ids. -/
theorem C5_counterexample :
    ((mget (chatMessage3 (chatMessage3 chatState0 sockAlice (some "s") (some "hi") 5 (9/10)).state
        sockAlice (some "s") (some "yo") 5 (1/2)).state.sessionChats "s").getD []).map ChatMsg.id
      = [((5 : Nat) : ℚ) + 9/10, ((5 : Nat) : ℚ) + 1/2]
    ∧ ¬ (((5 : Nat) : ℚ) + 1/2 > ((5 : Nat) : ℚ) + 9/10) := by
  have hg1 : ¬ ("s" = "" ∨ "hi" = "" ∨ jsTruthy sockAlice.currentSession = false) := by
    decide
  have hg2 : ¬ ("s" = "" ∨ "yo" = "" ∨ jsTruthy sockAlice.currentSession = false) := by
    decide
  constructor
  · simp [chatMessage3, hg1, hg2, mkChatMsg, chatState0, stEmpty, mget, mset]
  · norm_num

/-- Claim C5 (amended): the chat log is capped at 100 entries — the
handler keeps the most recent 100, so an append to a full log evicts the
oldest entry and stores the newest — and every stored message's id is
`Date.now() + Math.random()`, which is not strictly increasing across
appends (see the counterexample). -/
theorem C5_amended_chat_capacity (st : ServerState) (sock : Socket)
    (sid m : String) (now : Nat) (rand : ℚ) (h : List ChatMsg)
    (hsid : sid ≠ "") (hm : m ≠ "") (hcur : jsTruthy sock.currentSession = true)
    (hh : mget st.sessionChats sid = some h) :
    (h.length ≤ 100 →
      ((mget (chatMessage3 st sock (some sid) (some m) now rand).state.sessionChats sid).getD []).length ≤ 100)
    ∧ (h.length = 100 →
      mget (chatMessage3 st sock (some sid) (some m) now rand).state.sessionChats sid
        = some (h.drop 1 ++ [mkChatMsg sock m now rand]))
    ∧ (chatMessage3 st sock (some sid) (some m) now rand).broadcast
        = some (mkChatMsg sock m now rand)
    ∧ (mkChatMsg sock m now rand).id = (now : ℚ) + rand := by
  have hguard : ¬ (sid = "" ∨ m = "" ∨ jsTruthy sock.currentSession = false) := by
    simp [hsid, hm, hcur]
  refine ⟨?_, ?_, ?_, rfl⟩
  · intro hle
    by_cases hc : 100 < h.length + 1
    · simp [chatMessage3, hguard, hh, hc, mget_mset_self]
      omega
    · simp [chatMessage3, hguard, hh, hc, mget_mset_self]
      omega
  · intro h100
    have hc : 100 < (h ++ [mkChatMsg sock m now rand]).length := by
      simp [List.length_append, h100]
    have hdrop : (h ++ [mkChatMsg sock m now rand]).drop 1
        = h.drop 1 ++ [mkChatMsg sock m now rand] := by
      apply List.drop_append_of_le_length
      omega
    simp [chatMessage3, hguard, hh, hc, mget_mset_self, List.length_append, h100, hdrop]
  · simp [chatMessage3, hguard, hh]

/-- Witness for the amended C5: appending a 101st message to a full chat
log keeps the log at 100 entries, evicting the oldest and storing the
newest. -/
theorem C5_amended_witness :
    ((mget (chatMessage3 chatState100 sockAlice (some "s") (some "ping") 7 0).state.sessionChats "s").getD []).length ≤ 100
    ∧ mget (chatMessage3 chatState100 sockAlice (some "s") (some "ping") 7 0).state.sessionChats "s"
        = some ((List.replicate 100 cm0).drop 1 ++ [mkChatMsg sockAlice "ping" 7 0]) := by
  have h := C5_amended_chat_capacity chatState100 sockAlice "s" "ping" 7 0
    (List.replicate 100 cm0) (by decide) (by decide) (by decide) rfl
  exact ⟨h.1 (by simp), h.2.1 (by simp)⟩

/-- Claim C8 counterexample: a `code-change` from a connection that never
identified (`socket.userData` unset) is not rejected: the room's stored
buffer is overwritten (from `old` to `new`), the edit is broadcast with
the author reported as `Anonymous`, and no error event of any kind is
emitted back to the sender. -/
theorem C8_counterexample :
    mget (codeChange c8State sockAnon (some "s") "new" none 0).state.sessionCode "s" = some "new"
    ∧ (codeChange c8State sockAnon (some "s") "new" none 0).senderEvents = []
    ∧ (codeChange c8State sockAnon (some "s") "new" none 0).broadcast.map CodeChangeMsg.fromUser
        = some "Anonymous"
    ∧ mget c8State.sessionCode "s" = some "old" := by
  decide

/-- Claim C8 (amended): room-scoped events from unidentified connections
are not rejected with an error signal: the first variant's `chat-message`
handler silently drops the event (nothing emitted, nothing stored), while
the `code-change` handler processes it normally with the author reported
as `Anonymous`; in both cases the handler returns without crashing and
emits nothing back to the sender. -/
theorem C8_amended_no_rejection (st : ServerState) (sockId : String)
    (cur : Option String) (sid code m : String) (op : Option String)
    (now : Nat) (rand : ℚ) (hsid : sid ≠ "") (hcur : jsTruthy cur = true) :
    (codeChange st ⟨sockId, none, cur⟩ (some sid) code op now).senderEvents = []
    ∧ mget (codeChange st ⟨sockId, none, cur⟩ (some sid) code op now).state.sessionCode sid
        = some code
    ∧ (codeChange st ⟨sockId, none, cur⟩ (some sid) code op now).broadcast.map CodeChangeMsg.fromUser
        = some "Anonymous"
    ∧ chatMessage1 ⟨sockId, none, cur⟩ (some sid) (some m) now rand = ⟨none, []⟩ := by
  have hguard : ¬ (sid = "" ∨ jsTruthy cur = false) := by simp [hsid, hcur]
  exact ⟨by simp [codeChange, hguard],
         by simp [codeChange, hguard, mget_mset_self],
         by simp [codeChange, hguard, jsOrDefault],
         rfl⟩

/-- Witness for the amended C8 at a concrete unidentified connection. -/
theorem C8_amended_witness :
    (codeChange c8State ⟨"a", none, some "s"⟩ (some "s") "new" none 0).senderEvents = []
    ∧ mget (codeChange c8State ⟨"a", none, some "s"⟩ (some "s") "new" none 0).state.sessionCode "s"
        = some "new"
    ∧ (codeChange c8State ⟨"a", none, some "s"⟩ (some "s") "new" none 0).broadcast.map CodeChangeMsg.fromUser
        = some "Anonymous"
    ∧ chatMessage1 ⟨"a", none, some "s"⟩ (some "s") (some "hello") 0 0 = ⟨none, []⟩ :=
  C8_amended_no_rejection c8State "a" (some "s") "s" "new" "hello" none 0 0
    (by decide) (by decide)

/-- Claim C3 counterexample: two `execute-code` requests arriving at the
same instant both start their collaborator calls at that instant — the
gap between the two dispatches is 0 ms, not at least 300 ms, and with any
positive call duration both calls are in flight simultaneously; the
source has no dispatcher queue or pacing state at all. -/
theorem C3_counterexample :
    dispatchTimes [(some "r1", 0), (some "r2", 0)] = [0, 0]
    ∧ pairGapsOK 300 (dispatchTimes [(some "r1", 0), (some "r2", 0)]) = false
    ∧ inFlightCount (dispatchTimes [(some "r1", 0), (some "r2", 0)]) 1 0 = 2 := by
  decide

/-- Claim C3 (amended): the execute path applies no pacing at all: every
request passing the `if (!sessionId) return;` guard issues its
collaborator call at its own arrival instant, so the dispatch schedule is
exactly the arrival times of the guarded requests, and simultaneous
requests produce simultaneous, concurrently in-flight collaborator
calls. -/
theorem C3_amended_immediate_dispatch (events : List (Option String × Nat))
    (sid : String) (t : Nat) (hsid : sid ≠ "") :
    dispatchTimes events = (events.filter (fun e => jsTruthy e.1)).map Prod.snd
    ∧ (executeCode (some sid) t).pistonCallAt = some t := by
  constructor
  · induction events with
    | nil => rfl
    | cons e rest ih =>
        obtain ⟨osid, te⟩ := e
        cases osid with
        | none =>
            simp [dispatchTimes, executeCode, jsTruthy] at ih ⊢
            exact ih
        | some s =>
            by_cases hempty : s = "" <;>
              simp [dispatchTimes, executeCode, jsTruthy, hempty] at ih ⊢ <;>
              exact ih
  · simp [executeCode, hsid]

/-- Witness for the amended C3: a concrete batch of three events (two
guarded, one without a session id) dispatches exactly at the arrival
instants. -/
theorem C3_amended_witness :
    dispatchTimes [(some "r1", 0), (some "r2", 0), (none, 5)] = [0, 0]
    ∧ (executeCode (some "r1") 0).pistonCallAt = some 0 := by
  have h := C3_amended_immediate_dispatch [(some "r1", 0), (some "r2", 0), (none, 5)]
    "r1" 0 (by decide)
  exact ⟨h.1.trans (by decide), h.2⟩

/-- Claim C4 counterexample: a 429 rate-limit response from the
collaborator is surfaced immediately: the caller receives a Failed
result after exactly one collaborator call and no retry delay — not
after 3 attempts. -/
theorem C4_counterexample :
    (runOnPistonError (.httpResponse 429)).success = false
    ∧ (runOnPistonError (.httpResponse 429)).collaboratorCalls = 1
    ∧ (runOnPistonError (.httpResponse 429)).retryDelaysMs = []
    ∧ ¬ (runOnPistonError (.httpResponse 429)).collaboratorCalls = 3 := by
  decide

/-- Claim C4 (amended): on any collaborator failure — a 429 rate-limit
signal included — POST /run performs no retry and waits no delay: it
immediately returns a Failed (HTTP 500, success false) response after its
single collaborator call.  The caller therefore always receives a result
rather than an unresolved promise, but after 1 attempt, not 3; the 429
case only selects the rate-limit error message. -/
theorem C4_amended_no_retry (e : PistonError) :
    (runOnPistonError e).success = false
    ∧ (runOnPistonError e).httpStatus = 500
    ∧ (runOnPistonError e).collaboratorCalls = 1
    ∧ (runOnPistonError e).retryDelaysMs = []
    ∧ (runOnPistonError (.httpResponse 429)).error
        = "Too many execution requests. Please wait and try again." :=
  ⟨rfl, rfl, rfl, rfl, by decide⟩

/-- Claim C9: a typing flag set via `setTyping` without a subsequent stop
event is gone once the deadline elapses: the 3000 ms sweep scheduled by
`CodeState.setTyping` removes the user's entry when it fires; in the
first server variant the 2 s timeout clears the participant's `isTyping`
flag, and a participant removed by a mid-type disconnect is no longer
present in the map at all. -/
theorem C9_typing_deadline (l : List TypingEntry) (uid uname : String)
    (line col t : Nat) (users : SMap Participant) (sockId : String) :
    (∀ e ∈ typingSweep (setTyping l uid uname line col t) uid (t + 3000),
        e.userId ≠ uid)
    ∧ (∀ u, mget (typingClear1 users sockId) sockId = some u → u.isTyping = false)
    ∧ mget (mdel users sockId) sockId = none := by
  refine ⟨?_, ?_, mget_mdel_self users sockId⟩
  · intro e he
    unfold typingSweep setTyping at he
    rw [List.filter_append] at he
    rcases List.mem_append.mp he with h1 | h2
    · have hq := (List.mem_filter.mp (List.mem_filter.mp h1).1).2
      simpa using hq
    · simp [List.filter] at h2
  · intro u hu
    cases hq : mget users sockId with
    | none =>
        simp [typingClear1, hq] at hu
    | some u0 =>
        simp [typingClear1, hq, mget_mset_self] at hu
        subst hu
        rfl

/-- Witness for C9 at concrete inputs: the cleared flag is false, and the
record of a disconnected participant is gone from the map. -/
theorem C9_witness :
    Participant.isTyping { pAlice with isTyping := false } = false
    ∧ mget (mdel [("a", pAlice)] "a") "a" = none :=
  ⟨(C9_typing_deadline [] "u1" "alice" 0 0 1000 [("a", pAlice)] "a").2.1
      { pAlice with isTyping := false } (by decide),
   (C9_typing_deadline [] "u1" "alice" 0 0 1000 [("a", pAlice)] "a").2.2⟩

/-- Claim C10: the first join of a session id creates the room with its
buffer initialized to the fixed non-empty welcome template beginning with
`// Welcome to CodeCollab!` (never the empty string), and the catch-up
`code-sync` snapshot sent to that first joiner carries exactly this
template; the first/second variants' template likewise begins with that
header and is non-empty. -/
theorem C10_first_join_template (st : ServerState) (sock : Socket)
    (u : UserData) (sid : String) (now : Nat)
    (habs : mhas st.activeSessions sid = false) (hsid : sid ≠ "") :
    (joinSession3 st sock (some sid) (some u) now).codeSync = some welcomeTemplate3
    ∧ mget (joinSession3 st sock (some sid) (some u) now).state.sessionCode sid
        = some welcomeTemplate3
    ∧ welcomeTemplate3 ≠ ""
    ∧ "// Welcome to CodeCollab!".data.isPrefixOf welcomeTemplate3.data = true
    ∧ welcomeTemplate1 ≠ ""
    ∧ "// Welcome to CodeCollab!".data.isPrefixOf welcomeTemplate1.data = true := by
  refine ⟨?_, ?_, by decide, by decide, by decide, by decide⟩
  · simp [joinSession3, hsid, habs, mget_mset_self]
  · simp [joinSession3, hsid, habs, mget_mset_self]

/-- Witness for C10: the first joiner of room `s` in an empty registry is
sent exactly the welcome template as its catch-up snapshot. -/
theorem C10_witness :
    (joinSession3 stEmpty ⟨"a", some uAlice, none⟩ (some "s") (some uAlice) 0).codeSync
      = some welcomeTemplate3 :=
  (C10_first_join_template stEmpty ⟨"a", some uAlice, none⟩ uAlice "s" 0
    (by decide) (by decide)).1
